import Mathlib

/-!
Shallow embedding of the Bitrix24→Telegram notification bridge
(`app.py`, `user_mapping.py`, `telegram_bot.py`, `config.py`) and proofs
about its filter pipeline, payload normalizer, identity store, webhook
handler and notification renderer.

Python dictionaries are modelled as association lists with unique keys
(`List (String × PyVal)`), Python values by the inductive `PyVal`, and
functions that can raise (attribute errors on `.get` applied to a
non-dict) return `Except String _`.
-/

namespace Notif

/-- Python-like values occurring in parsed webhook payloads and in the
persisted mappings document: strings, integers, booleans, `None`, and
nested dicts. -/
inductive PyVal where
  | str  : String → PyVal
  | int  : Int → PyVal
  | bool : Bool → PyVal
  | none : PyVal
  | dict : List (String × PyVal) → PyVal

/-- Python truthiness: `""`, `0`, `False`, `None` and `{}` are falsy. -/
def pyTruthy : PyVal → Bool
  | .str s  => s != ""
  | .int n  => n != 0
  | .bool b => b
  | .none   => false
  | .dict d => !d.isEmpty

/-- Python `str(·)`.  The repr of a dict is modelled only as far as the
code observes it (it is never compared against anything but dates and
fixed tokens, which it can never equal); nonempty dict reprs are
abstracted to a brace placeholder. -/
def pyStr : PyVal → String
  | .str s  => s
  | .int n  => toString n
  | .bool b => if b then "True" else "False"
  | .none   => "None"
  | .dict d => if d.isEmpty then "\x7b\x7d" else "\x7b...\x7d"

mutual
/-- Python `==` on the value forms above (`True == 1` holds in Python,
dicts compare structurally). -/
def pyEq : PyVal → PyVal → Bool
  | .str s,  .str t  => s == t
  | .int m,  .int n  => m == n
  | .bool a, .bool b => a == b
  | .bool a, .int n  => (if a then (1 : Int) else 0) == n
  | .int n,  .bool a => n == (if a then (1 : Int) else 0)
  | .none,   .none   => true
  | .dict d, .dict e => pyEqList d e
  | _,       _       => false

def pyEqList : List (String × PyVal) → List (String × PyVal) → Bool
  | [], [] => true
  | (k, v) :: ds, (k', v') :: es => k == k' && pyEq v v' && pyEqList ds es
  | _, _ => false
end

def isPySpace (c : Char) : Bool := c = ' ' || c = '\t' || c = '\n' || c = '\r'

def trimChars (cs : List Char) : List Char :=
  ((cs.dropWhile isPySpace).reverse.dropWhile isPySpace).reverse

def digitsVal : List Char → Option Nat
  | [] => Option.none
  | cs => if cs.all Char.isDigit then
      Option.some (cs.foldl (fun a c => a * 10 + (c.toNat - 48)) 0)
    else Option.none

/-- `int(str)`: optional sign, digits, surrounding whitespace tolerated
(exotic forms such as digit-group underscores are out of scope). -/
def strToInt (s : String) : Option Int :=
  match trimChars s.data with
  | '-' :: rest => (digitsVal rest).map (fun n => -(n : Int))
  | '+' :: rest => (digitsVal rest).map (fun n => (n : Int))
  | cs => (digitsVal cs).map (fun n => (n : Int))

/-- `int(·)` applied to a Python value; `Option.none` models the
`ValueError`/`TypeError` that the callers swallow. -/
def pyToInt : PyVal → Option Int
  | .str s  => strToInt s
  | .int n  => Option.some n
  | .bool b => Option.some (if b then 1 else 0)
  | .none   => Option.none
  | .dict _ => Option.none

/-- Lowercasing as `str.lower()` does, for the alphabets the program's
literals use (ASCII and Cyrillic, including Ё). -/
def pyLowerChar (c : Char) : Char :=
  if 'A' ≤ c ∧ c ≤ 'Z' then Char.ofNat (c.toNat + 32)
  else if c.toNat = 0x401 then Char.ofNat 0x451
  else if 0x410 ≤ c.toNat ∧ c.toNat ≤ 0x42F then Char.ofNat (c.toNat + 0x20)
  else c

def pyLower (s : String) : String := ⟨s.data.map pyLowerChar⟩

/-- Substring test (`needle in hay` on Python strings). -/
def containsSub (needle : List Char) : List Char → Bool
  | [] => needle.isEmpty
  | c :: rest => needle.isPrefixOf (c :: rest) || containsSub needle rest

/-- The chained lookup idiom `d.get(k1) or d.get(k2) or ... or ""`:
first present-and-truthy value, defaulting to the empty string. -/
def chainGet (d : List (String × PyVal)) : List String → PyVal
  | [] => .str ""
  | k :: ks =>
    match d.lookup k with
    | Option.some v => if pyTruthy v then v else chainGet d ks
    | Option.none => chainGet d ks

/-! ## Identity store (`user_mapping.py`) -/

/-- The parsed `user_mappings.json` document: an ordered list of leader
identifiers (arbitrary JSON values, normally strings) and the
user-id → chat-id dict. -/
structure Mappings where
  leaders : List PyVal
  telegram_chats : List (String × String)

def emptyMappings : Mappings := ⟨[], []⟩

/-- Condition of the mappings file on disk. -/
inductive FileState where
  | missing
  | malformed
  | valid (m : Mappings)

/-- `_load_mappings`: a missing or malformed document degrades to the
empty structure instead of raising. -/
def load_mappings : FileState → Mappings
  | .missing => emptyMappings
  | .malformed => emptyMappings
  | .valid m => m

/-- `is_leader`: membership of `str(user_id)` in the `str`-image of the
leaders list. -/
def is_leader (fs : FileState) (user_id : PyVal) : Bool :=
  ((load_mappings fs).leaders.map pyStr).contains (pyStr user_id)

/-- `get_telegram_chat_id`: dict lookup keyed by `str(user_id)`. -/
def get_telegram_chat_id (fs : FileState) (user_id : PyVal) : Option String :=
  (load_mappings fs).telegram_chats.lookup (pyStr user_id)

def list_mappings (fs : FileState) : Mappings := load_mappings fs

def get_all_leaders (fs : FileState) : List String :=
  (load_mappings fs).leaders.map pyStr

/-- Python `list.remove`: delete the first element `==`-equal to `x`
(no-op on the empty list; callers guard on membership). -/
def pyRemoveFirst (x : PyVal) : List PyVal → List PyVal
  | [] => []
  | v :: vs => if pyEq x v then vs else v :: pyRemoveFirst x vs

/-- Python dict assignment `d[k] = v` on the association-list model:
replace the value at the first occurrence of `k`, else append. -/
def dictSet (d : List (String × String)) (k v : String) : List (String × String) :=
  match d with
  | [] => [(k, v)]
  | (k', v') :: rest => if k' = k then (k, v) :: rest else (k', v') :: dictSet rest k v

/-- Python `del d[k]` (dict keys are unique, so erasing every pair with
key `k` coincides with deleting the single entry). -/
def dictDel (d : List (String × String)) (k : String) : List (String × String) :=
  d.filter (fun p => p.1 != k)

/-- `add_leader` on the loaded document.  Returns the persisted document
and the reported boolean (the file write itself is modelled as
succeeding). -/
def add_leader (m : Mappings) (user_id : PyVal) : Mappings × Bool :=
  let s := pyStr user_id
  if m.leaders.any (fun v => pyEq (.str s) v) then (m, true)
  else ({ m with leaders := m.leaders ++ [.str s] }, true)

/-- `remove_leader` on the loaded document. -/
def remove_leader (m : Mappings) (user_id : PyVal) : Mappings × Bool :=
  let s := pyStr user_id
  if m.leaders.any (fun v => pyEq (.str s) v) then
    ({ m with leaders := pyRemoveFirst (.str s) m.leaders }, true)
  else (m, true)

/-- `add_telegram_mapping` on the loaded document. -/
def add_telegram_mapping (m : Mappings) (user_id chat_id : PyVal) : Mappings × Bool :=
  ({ m with telegram_chats := dictSet m.telegram_chats (pyStr user_id) (pyStr chat_id) }, true)

/-- `remove_telegram_mapping` on the loaded document. -/
def remove_telegram_mapping (m : Mappings) (user_id : PyVal) : Mappings × Bool :=
  let s := pyStr user_id
  if (m.telegram_chats.lookup s).isSome then
    ({ m with telegram_chats := dictDel m.telegram_chats s }, true)
  else (m, true)

/-- Recogniser for JSON-string entries. -/
def PyVal.isStr : PyVal → Bool
  | .str _ => true
  | _ => false

/-- Python-level duplicate freedom of a list (`==`-based, as `in` is). -/
def noDups : List PyVal → Bool
  | [] => true
  | v :: vs => !(vs.any (pyEq v)) && noDups vs

/-! ### Basic lemmas about the store primitives -/

theorem pyEq_str_iff (s : String) (v : PyVal) : pyEq (.str s) v = true ↔ v = .str s := by
  cases v with
  | str t =>
    rw [show pyEq (.str s) (.str t) = (s == t) from rfl, beq_iff_eq, PyVal.str.injEq]
    exact eq_comm
  | int n => rw [show pyEq (.str s) (.int n) = false from rfl]; simp
  | bool b => rw [show pyEq (.str s) (.bool b) = false from rfl]; simp
  | none => rw [show pyEq (.str s) .none = false from rfl]; simp
  | dict d => rw [show pyEq (.str s) (.dict d) = false from rfl]; simp

theorem pyEq_str_right (s : String) (v : PyVal) : pyEq v (.str s) = pyEq (.str s) v := by
  cases v <;> simp [pyEq, eq_comm]

theorem pyRemoveFirst_sublist (x : PyVal) (l : List PyVal) :
    (pyRemoveFirst x l).Sublist l := by
  induction l with
  | nil => simp [pyRemoveFirst]
  | cons v vs ih =>
    by_cases h : pyEq x v = true
    · simp [pyRemoveFirst, h]
    · simpa [pyRemoveFirst, h] using ih.cons₂ v

theorem str_not_mem_pyRemoveFirst (s : String) (l : List PyVal)
    (hnd : noDups l = true) :
    PyVal.str s ∉ pyRemoveFirst (.str s) l := by
  induction l with
  | nil => simp [pyRemoveFirst]
  | cons v vs ih =>
    intro hmem
    rw [noDups, Bool.and_eq_true, Bool.not_eq_true'] at hnd
    by_cases h : pyEq (.str s) v = true
    · rw [pyEq_str_iff] at h
      subst h
      rw [pyRemoveFirst, if_pos (by rw [pyEq_str_iff])] at hmem
      have : vs.any (pyEq (.str s)) = true :=
        List.any_eq_true.mpr ⟨_, hmem, by rw [pyEq_str_iff]⟩
      rw [hnd.1] at this
      exact Bool.false_ne_true this
    · rw [pyRemoveFirst, if_neg h] at hmem
      rcases List.mem_cons.mp hmem with h' | h'
      · exact h (by rw [← h']; exact (pyEq_str_iff s _).mpr rfl)
      · exact ih hnd.2 h'

theorem noDups_sublist {l' l : List PyVal} (h : l'.Sublist l) (hnd : noDups l = true) :
    noDups l' = true := by
  induction h with
  | slnil => exact hnd
  | cons a h ih =>
    rw [noDups, Bool.and_eq_true] at hnd
    exact ih hnd.2
  | cons₂ a h ih =>
    rw [noDups, Bool.and_eq_true, Bool.not_eq_true'] at hnd ⊢
    refine ⟨?_, ih hnd.2⟩
    cases hcase : List.any _ (pyEq a)
    · rfl
    · rcases List.any_eq_true.mp hcase with ⟨x, hx, hpe⟩
      have h2 := List.any_eq_true.mpr ⟨x, h.subset hx, hpe⟩
      rw [hnd.1] at h2
      exact absurd h2 Bool.false_ne_true

theorem noDups_append_single (l : List PyVal) (s : String)
    (hnd : noDups l = true) (hx : l.any (pyEq (.str s)) = false) :
    noDups (l ++ [PyVal.str s]) = true := by
  induction l with
  | nil => simp [noDups, pyEq]
  | cons v vs ih =>
    rw [noDups, Bool.and_eq_true, Bool.not_eq_true'] at hnd
    rw [List.any_cons, Bool.or_eq_false_iff] at hx
    rw [List.cons_append, noDups, Bool.and_eq_true, Bool.not_eq_true']
    refine ⟨?_, ih hnd.2 hx.2⟩
    rw [List.any_append, hnd.1]
    simp only [List.any_cons, List.any_nil, Bool.or_false, Bool.false_or]
    rw [pyEq_str_right]
    exact hx.1

theorem lookup_dictSet (d : List (String × String)) (k v : String) :
    (dictSet d k v).lookup k = Option.some v := by
  induction d with
  | nil => simp [dictSet, List.lookup]
  | cons p rest ih =>
    rcases p with ⟨k', v'⟩
    by_cases h : k' = k
    · subst h; simp [dictSet, List.lookup]
    · have hbeq : (k == k') = false := by simpa [beq_iff_eq] using Ne.symm h
      simp [dictSet, h, List.lookup, hbeq, ih]

theorem lookup_dictDel (d : List (String × String)) (k : String) :
    (dictDel d k).lookup k = Option.none := by
  induction d with
  | nil => simp [dictDel, List.lookup]
  | cons p rest ih =>
    rcases p with ⟨k', v'⟩
    by_cases h : k' = k
    · subst h
      simpa [dictDel, List.filter_cons] using ih
    · have hbeq : (k == k') = false := by simpa [beq_iff_eq] using Ne.symm h
      have hne : (k' != k) = true := by simpa [bne] using h
      simp only [dictDel, List.filter_cons, hne, if_true] at ih ⊢
      simp [List.lookup, hbeq]
      simpa [dictDel] using ih

theorem all_isStr_mem {l : List PyVal} (h : l.all PyVal.isStr = true) {v : PyVal}
    (hv : v ∈ l) : v = PyVal.str (pyStr v) := by
  have := List.all_eq_true.mp h v hv
  cases v <;> simp_all [PyVal.isStr, pyStr]

/-! ## Claims C4, C5, C7, C10 -/

/-- C4: `is_leader` returns true exactly when the identifier's string
form is a member of the string images of the stored leader set, and is
insensitive to a numeric/string type mismatch of the queried identifier. -/
theorem is_leader_characterisation (fs : FileState) (u : PyVal) :
    (is_leader fs u = true ↔ pyStr u ∈ ((load_mappings fs).leaders.map pyStr)) ∧
    (∀ n : Int, is_leader fs (.int n) = is_leader fs (.str (toString n))) := by
  refine ⟨?_, fun n => rfl⟩
  simp [is_leader, List.elem_iff]

/-- C5 fails as stated: on a store whose leader list holds the entry
`"7"` twice, `remove_leader "7"` removes only the first occurrence, so
`is_leader "7"` still reports true afterwards. -/
theorem remove_leader_roundtrip_fails :
    is_leader (.valid (remove_leader ⟨[.str "7", .str "7"], []⟩ (.str "7")).1) (.str "7")
      = true := by rfl

/-- C5 (amended): on every store whose leader list consists of string
entries without Python-level duplicates — the representation the
mutations themselves maintain — the round trips hold: add-leader then
is-leader is true, remove-leader then is-leader is false, add-chat-
mapping then lookup returns exactly the stored chat id, remove then
lookup returns none. -/
theorem identity_store_roundtrips (m : Mappings) (u : PyVal) (c : String)
    (hstr : m.leaders.all PyVal.isStr = true) (hnd : noDups m.leaders = true) :
    is_leader (.valid (add_leader m u).1) u = true ∧
    is_leader (.valid (remove_leader m u).1) u = false ∧
    get_telegram_chat_id (.valid (add_telegram_mapping m u (.str c)).1) u = Option.some c ∧
    get_telegram_chat_id (.valid (remove_telegram_mapping m u).1) u = Option.none := by
  refine ⟨?_, ?_, ?_, ?_⟩
  · by_cases h : m.leaders.any (fun v => pyEq (.str (pyStr u)) v) = true
    · rcases List.any_eq_true.mp h with ⟨v, hv, hpe⟩
      rw [pyEq_str_iff] at hpe
      simp only [add_leader, is_leader, load_mappings, h, if_pos]
      rw [List.elem_iff]
      exact List.mem_map.mpr ⟨v, hv, by rw [hpe, pyStr]⟩
    · simp only [add_leader, is_leader, load_mappings, h, if_neg]
      simp [List.elem_iff]
      exact Or.inr rfl
  · by_cases h : m.leaders.any (fun v => pyEq (.str (pyStr u)) v) = true
    · simp only [remove_leader, is_leader, load_mappings, h, if_pos]
      rw [Bool.eq_false_iff]
      intro hc
      rw [List.elem_iff] at hc
      rcases List.mem_map.mp hc with ⟨v, hv, hvs⟩
      have hall : (pyRemoveFirst (.str (pyStr u)) m.leaders).all PyVal.isStr = true := by
        rw [List.all_eq_true] at hstr ⊢
        exact fun x hx => hstr x ((pyRemoveFirst_sublist _ _).subset hx)
      have hv' := all_isStr_mem hall hv
      rw [hvs] at hv'
      rw [hv'] at hv
      exact str_not_mem_pyRemoveFirst (pyStr u) m.leaders hnd hv
    · simp only [remove_leader, is_leader, load_mappings, h, if_neg]
      rw [Bool.eq_false_iff]
      intro hc
      rw [List.elem_iff] at hc
      rcases List.mem_map.mp hc with ⟨v, hv, hvs⟩
      have hv' := all_isStr_mem hstr hv
      rw [hvs] at hv'
      exact h (List.any_eq_true.mpr ⟨v, hv, by rw [hv', pyEq_str_iff]⟩)
  · simpa [get_telegram_chat_id, add_telegram_mapping, load_mappings, pyStr]
      using lookup_dictSet m.telegram_chats (pyStr u) c
  · by_cases h : (m.telegram_chats.lookup (pyStr u)).isSome = true
    · simp only [remove_telegram_mapping, get_telegram_chat_id, load_mappings, h, if_pos]
      exact lookup_dictDel m.telegram_chats (pyStr u)
    · simp only [remove_telegram_mapping, get_telegram_chat_id, load_mappings, h, if_neg]
      exact Option.not_isSome_iff_eq_none.mp (by simpa using h)

/-- Witness instantiating C5's amended round-trip theorem on a concrete
store. -/
theorem identity_store_roundtrips_witness :
    ((⟨[.str "1"], [("9", "555")]⟩ : Mappings).leaders.all PyVal.isStr = true) ∧
    (noDups (⟨[.str "1"], [("9", "555")]⟩ : Mappings).leaders = true) ∧
    (is_leader (.valid (add_leader ⟨[.str "1"], [("9", "555")]⟩ (.str "100")).1)
        (.str "100") = true ∧
      is_leader (.valid (remove_leader ⟨[.str "1"], [("9", "555")]⟩ (.str "100")).1)
        (.str "100") = false ∧
      get_telegram_chat_id
        (.valid (add_telegram_mapping ⟨[.str "1"], [("9", "555")]⟩ (.str "100") (.str "42")).1)
        (.str "100") = Option.some "42" ∧
      get_telegram_chat_id
        (.valid (remove_telegram_mapping ⟨[.str "1"], [("9", "555")]⟩ (.str "100")).1)
        (.str "100") = Option.none) :=
  ⟨rfl, rfl, identity_store_roundtrips ⟨[.str "1"], [("9", "555")]⟩ (.str "100") "42" rfl rfl⟩

/-- C7: a missing or malformed mappings document loads as the empty
structure, and every read operation on such a store still returns a
value — false, none, the empty document, or the empty list. -/
theorem load_failure_degrades (u : PyVal) :
    load_mappings .missing = emptyMappings ∧
    load_mappings .malformed = emptyMappings ∧
    is_leader .missing u = false ∧
    is_leader .malformed u = false ∧
    get_telegram_chat_id .missing u = Option.none ∧
    get_telegram_chat_id .malformed u = Option.none ∧
    list_mappings .missing = emptyMappings ∧
    list_mappings .malformed = emptyMappings ∧
    get_all_leaders .missing = [] ∧
    get_all_leaders .malformed = [] :=
  ⟨rfl, rfl, rfl, rfl, rfl, rfl, rfl, rfl, rfl, rfl⟩

/-- C10: every store mutation preserves duplicate-freedom of the leader
list, and `add_leader` on an already-present identifier is idempotent:
it leaves the persisted store unchanged and still reports success. -/
theorem store_mutations_preserve_noDups (m : Mappings) (u c : PyVal)
    (hnd : noDups m.leaders = true) :
    noDups (add_leader m u).1.leaders = true ∧
    noDups (remove_leader m u).1.leaders = true ∧
    noDups (add_telegram_mapping m u c).1.leaders = true ∧
    noDups (remove_telegram_mapping m u).1.leaders = true ∧
    (m.leaders.any (fun v => pyEq (.str (pyStr u)) v) = true → add_leader m u = (m, true)) := by
  refine ⟨?_, ?_, hnd, ?_, ?_⟩
  · by_cases h : m.leaders.any (fun v => pyEq (.str (pyStr u)) v) = true
    · simpa only [add_leader, h, if_pos] using hnd
    · simp only [add_leader, h, if_neg]
      exact noDups_append_single m.leaders (pyStr u) hnd
        (by rw [Bool.eq_false_iff]; exact fun hc => h (by simpa using hc))
  · by_cases h : m.leaders.any (fun v => pyEq (.str (pyStr u)) v) = true
    · simp only [remove_leader, h, if_pos]
      exact noDups_sublist (pyRemoveFirst_sublist _ _) hnd
    · simpa only [remove_leader, h, if_neg] using hnd
  · by_cases h : (m.telegram_chats.lookup (pyStr u)).isSome = true
    · simpa only [remove_telegram_mapping, h, if_pos] using hnd
    · simpa only [remove_telegram_mapping, h, if_neg] using hnd
  · intro h
    simp only [add_leader, h, if_pos]

/-- Witness instantiating C10 on a concrete store holding leader "5". -/
theorem store_mutations_preserve_noDups_witness :
    (noDups (⟨[.str "5"], []⟩ : Mappings).leaders = true) ∧
    (noDups (add_leader ⟨[.str "5"], []⟩ (.str "5")).1.leaders = true ∧
      noDups (remove_leader ⟨[.str "5"], []⟩ (.str "5")).1.leaders = true ∧
      noDups (add_telegram_mapping ⟨[.str "5"], []⟩ (.str "5") (.str "1")).1.leaders = true ∧
      noDups (remove_telegram_mapping ⟨[.str "5"], []⟩ (.str "5")).1.leaders = true ∧
      ((⟨[.str "5"], []⟩ : Mappings).leaders.any
          (fun v => pyEq (.str (pyStr (.str "5"))) v) = true →
        add_leader ⟨[.str "5"], []⟩ (.str "5") = (⟨[.str "5"], []⟩, true))) :=
  ⟨rfl, store_mutations_preserve_noDups ⟨[.str "5"], []⟩ (.str "5") (.str "1") rfl⟩

/-! ## Deadline parsing and urgency (`app.py`: `is_task_urgent`)

`datetime.strptime` over the code's six fixed formats.  The `%Y`
directive matches exactly four digits; `%d`, `%m`, `%H`, `%M`, `%S`
match one or two digits whose value lies in the directive's range
(two digits are preferred when they form an in-range value — the
separators in these formats are never digits, so this coincides with
the regex matching CPython performs); the whole string must be
consumed; `datetime` construction then validates the calendar date.
Literal `T`/`Z` are matched in the spelling the formats use. -/

structure PyDateTime where
  year : Nat
  month : Nat
  day : Nat
  hour : Nat
  minute : Nat
  second : Nat
  deriving Repr, DecidableEq

def isLeap (y : Nat) : Bool := (y % 4 == 0 && y % 100 != 0) || y % 400 == 0

def daysInMonth (y m : Nat) : Nat :=
  if m = 2 then (if isLeap y then 29 else 28)
  else if m = 4 ∨ m = 6 ∨ m = 9 ∨ m = 11 then 30
  else 31

def digitVal (c : Char) : Nat := c.toNat - 48

def read1 (lo hi : Nat) : List Char → Option (Nat × List Char)
  | c :: rest =>
    if c.isDigit then
      let v := digitVal c
      if lo ≤ v ∧ v ≤ hi then Option.some (v, rest) else Option.none
    else Option.none
  | [] => Option.none

def read2or1 (lo hi : Nat) (cs : List Char) : Option (Nat × List Char) :=
  match cs with
  | c1 :: c2 :: rest =>
    if c1.isDigit && c2.isDigit then
      let v := digitVal c1 * 10 + digitVal c2
      if lo ≤ v ∧ v ≤ hi then Option.some (v, rest) else read1 lo hi cs
    else read1 lo hi cs
  | _ => read1 lo hi cs

def readYear4 : List Char → Option (Nat × List Char)
  | c1 :: c2 :: c3 :: c4 :: rest =>
    if c1.isDigit && c2.isDigit && c3.isDigit && c4.isDigit then
      Option.some (((digitVal c1 * 10 + digitVal c2) * 10 + digitVal c3) * 10
        + digitVal c4, rest)
    else Option.none
  | _ => Option.none

def lit (ch : Char) : List Char → Option (List Char)
  | c :: rest => if c = ch then Option.some rest else Option.none
  | [] => Option.none

/-- `%Y-%m-%d`. -/
def pDate (cs : List Char) : Option (Nat × Nat × Nat × List Char) := do
  let (y, cs) ← readYear4 cs
  let cs ← lit '-' cs
  let (m, cs) ← read2or1 1 12 cs
  let cs ← lit '-' cs
  let (d, cs) ← read2or1 1 31 cs
  pure (y, m, d, cs)

/-- `%H:%M:%S` (the seconds directive also admits 60–61, which the
subsequent `datetime` construction rejects; the net effect equals
requiring 0–59 here). -/
def pTime (cs : List Char) : Option (Nat × Nat × Nat × List Char) := do
  let (h, cs) ← read2or1 0 23 cs
  let cs ← lit ':' cs
  let (mi, cs) ← read2or1 0 59 cs
  let cs ← lit ':' cs
  let (s, cs) ← read2or1 0 59 cs
  pure (h, mi, s, cs)

/-- `%d.%m.%Y`. -/
def pDateDots (cs : List Char) : Option (Nat × Nat × Nat × List Char) := do
  let (d, cs) ← read2or1 1 31 cs
  let cs ← lit '.' cs
  let (m, cs) ← read2or1 1 12 cs
  let cs ← lit '.' cs
  let (y, cs) ← readYear4 cs
  pure (y, m, d, cs)

/-- `datetime` construction plus the unconverted-data check: the string
must be exhausted, the year within `MINYEAR..MAXYEAR`, and the day
valid for the month. -/
def finishDT (y m d hh mi ss : Nat) (rest : List Char) : Option PyDateTime :=
  if rest.isEmpty ∧ 1 ≤ y ∧ d ≤ daysInMonth y m then Option.some ⟨y, m, d, hh, mi, ss⟩
  else Option.none

def fmtYmdHMS (cs : List Char) : Option PyDateTime := do
  let (y, m, d, cs) ← pDate cs
  let cs ← lit ' ' cs
  let (h, mi, s, cs) ← pTime cs
  finishDT y m d h mi s cs

def fmtYmdTHMS (cs : List Char) : Option PyDateTime := do
  let (y, m, d, cs) ← pDate cs
  let cs ← lit 'T' cs
  let (h, mi, s, cs) ← pTime cs
  finishDT y m d h mi s cs

def fmtYmdTHMSZ (cs : List Char) : Option PyDateTime := do
  let (y, m, d, cs) ← pDate cs
  let cs ← lit 'T' cs
  let (h, mi, s, cs) ← pTime cs
  let cs ← lit 'Z' cs
  finishDT y m d h mi s cs

def fmtYmd (cs : List Char) : Option PyDateTime := do
  let (y, m, d, cs) ← pDate cs
  finishDT y m d 0 0 0 cs

def fmtDmyHMS (cs : List Char) : Option PyDateTime := do
  let (y, m, d, cs) ← pDateDots cs
  let cs ← lit ' ' cs
  let (h, mi, s, cs) ← pTime cs
  finishDT y m d h mi s cs

def fmtDmy (cs : List Char) : Option PyDateTime := do
  let (y, m, d, cs) ← pDateDots cs
  finishDT y m d 0 0 0 cs

/-- The code's fixed, ordered `date_formats` list. -/
def date_formats : List (List Char → Option PyDateTime) :=
  [fmtYmdHMS, fmtYmdTHMS, fmtYmdTHMSZ, fmtYmd, fmtDmyHMS, fmtDmy]

def firstParse : List (List Char → Option PyDateTime) → List Char → Option PyDateTime
  | [], _ => Option.none
  | f :: fs, cs =>
    match f cs with
    | Option.some dt => Option.some dt
    | Option.none => firstParse fs cs

/-- The deadline-parsing loop: try each format in order, stop at the
first success, swallow every failure. -/
def parse_deadline (s : String) : Option PyDateTime :=
  firstParse date_formats s.data

/-- Day count of a proleptic-Gregorian civil date, measured from
0000-03-01 (the standard era/year-of-era computation; all quantities
stay nonnegative because the parser guarantees `year ≥ 1`). -/
def civilDays (y m d : Nat) : Nat :=
  let y' := if m ≤ 2 then y - 1 else y
  let era := y' / 400
  let yoe := y' % 400
  let mp := if m > 2 then m - 3 else m + 9
  let doy := (153 * mp + 2) / 5 + d - 1
  let doe := yoe * 365 + yoe / 4 - yoe / 100 + doy
  era * 146097 + doe

/-- A datetime as an absolute second count on the proleptic-Gregorian
timeline (Python's `datetime` subtraction measures exactly this
difference). -/
def dtSeconds (dt : PyDateTime) : Int :=
  (civilDays dt.year dt.month dt.day : Int) * 86400
    + dt.hour * 3600 + dt.minute * 60 + dt.second

/-- The environment-derived configuration values the filter pipeline
reads (`config.py`). -/
structure Config where
  URGENT_PRIORITY_THRESHOLD : Int
  URGENT_DEADLINE_HOURS : Int
  BITRIX24_DOMAIN : String
  BITRIX24_AUTH_TOKEN : String

/-- `is_task_urgent`.  `now` is the current time in absolute seconds
(`datetime.now()`, sub-second part not modelled).  The code compares
`0 <= diff_seconds/3600 <= URGENT_DEADLINE_HOURS` on floats; over the
representable range this equals the integer comparison on seconds used
here. -/
def is_task_urgent (cfg : Config) (now : Int) (task_data : List (String × PyVal)) : Bool :=
  let priority := chainGet task_data ["PRIORITY", "priority", "Priority"]
  let priorityUrgent :=
    match (if pyTruthy priority then pyToInt priority else Option.some 0) with
    | Option.some n => decide (cfg.URGENT_PRIORITY_THRESHOLD ≤ n)
    | Option.none => false
  if priorityUrgent then true
  else
    let deadline := chainGet task_data ["DEADLINE", "deadline", "Deadline"]
    if pyTruthy deadline then
      match parse_deadline (pyStr deadline) with
      | Option.some dt =>
        decide (0 ≤ dtSeconds dt - now ∧
          dtSeconds dt - now ≤ cfg.URGENT_DEADLINE_HOURS * 3600)
      | Option.none => false
    else false

/-! ### Claim C1 -/

/-- Spec-side reading of urgency via priority: the priority field parses
as an integer at or above the configured threshold. -/
def priorityAtThreshold (cfg : Config) (td : List (String × PyVal)) : Prop :=
  ∃ n : Int, pyToInt (chainGet td ["PRIORITY", "priority", "Priority"]) = Option.some n ∧
    cfg.URGENT_PRIORITY_THRESHOLD ≤ n

/-- Spec-side reading of urgency via deadline: the deadline field,
parsed by the first matching pattern of the fixed ordered format list,
lies within the closed interval `[now, now + hour window]`. -/
def deadlineInWindow (cfg : Config) (now : Int) (td : List (String × PyVal)) : Prop :=
  ∃ dt, parse_deadline (pyStr (chainGet td ["DEADLINE", "deadline", "Deadline"]))
      = Option.some dt ∧
    now ≤ dtSeconds dt ∧ dtSeconds dt ≤ now + cfg.URGENT_DEADLINE_HOURS * 3600

theorem parse_deadline_falsy (v : PyVal) (h : pyTruthy v = false) :
    parse_deadline (pyStr v) = Option.none := by
  cases v with
  | str s =>
    have hs : s = "" := by simpa [pyTruthy] using h
    subst hs; rfl
  | int n =>
    have hn : n = 0 := by simpa [pyTruthy] using h
    subst hn; rfl
  | bool b =>
    have hb : b = false := by simpa [pyTruthy] using h
    subst hb; rfl
  | none => rfl
  | dict d =>
    have hd : d = [] := by simpa [pyTruthy, List.isEmpty_iff] using h
    subst hd; rfl

theorem priority_branch_iff (thr : Int) (p : PyVal) (hthr : 0 < thr) :
    ((match (if pyTruthy p then pyToInt p else Option.some 0) with
      | Option.some n => decide (thr ≤ n)
      | Option.none => false) = true)
    ↔ ∃ n, pyToInt p = Option.some n ∧ thr ≤ n := by
  by_cases ht : pyTruthy p = true
  · rw [if_pos ht]
    cases hv : pyToInt p with
    | none => simp
    | some n => simp
  · rw [if_neg ht]
    rw [Bool.not_eq_true] at ht
    simp only [decide_eq_true_eq]
    constructor
    · intro hle; omega
    · rintro ⟨n, hn, hge⟩
      exfalso
      cases p with
      | str s =>
        have hs : s = "" := by simpa [pyTruthy] using ht
        subst hs
        rw [show pyToInt (.str "") = Option.none from rfl] at hn
        cases hn
      | int k =>
        have hk : k = 0 := by simpa [pyTruthy] using ht
        subst hk
        rw [show pyToInt (.int 0) = Option.some 0 from rfl] at hn
        cases hn
        omega
      | bool b =>
        have hb : b = false := by simpa [pyTruthy] using ht
        subst hb
        rw [show pyToInt (.bool false) = Option.some 0 from rfl] at hn
        cases hn
        omega
      | none => rw [show pyToInt .none = Option.none from rfl] at hn; cases hn
      | dict d => rw [show pyToInt (.dict d) = Option.none from rfl] at hn; cases hn

theorem deadline_branch_iff (cfg : Config) (now : Int) (dl : PyVal) :
    ((if pyTruthy dl then
        match parse_deadline (pyStr dl) with
        | Option.some dt =>
          decide (0 ≤ dtSeconds dt - now ∧
            dtSeconds dt - now ≤ cfg.URGENT_DEADLINE_HOURS * 3600)
        | Option.none => false
      else false) = true)
    ↔ ∃ dt, parse_deadline (pyStr dl) = Option.some dt ∧
        now ≤ dtSeconds dt ∧ dtSeconds dt ≤ now + cfg.URGENT_DEADLINE_HOURS * 3600 := by
  by_cases ht : pyTruthy dl = true
  · rw [if_pos ht]
    cases hp : parse_deadline (pyStr dl) with
    | none => simp [hp]
    | some dt =>
      simp only [hp, decide_eq_true_eq, Option.some.injEq]
      constructor
      · rintro ⟨h1, h2⟩; exact ⟨dt, rfl, by omega, by omega⟩
      · rintro ⟨dt', heq, h1, h2⟩; cases heq; exact ⟨by omega, by omega⟩
  · rw [if_neg ht]
    rw [Bool.not_eq_true] at ht
    rw [parse_deadline_falsy dl ht]
    simp

/-- C1: the urgency predicate holds exactly when the priority field
parses as an integer at or above the configured threshold, or the
deadline field — parsed by the first matching pattern of the fixed
ordered format list — lies within the closed interval
`[now, now + configured hour window]`; every parse failure is swallowed
into a `false` verdict rather than raised. -/
theorem is_task_urgent_iff (cfg : Config) (now : Int) (td : List (String × PyVal))
    (hthr : 0 < cfg.URGENT_PRIORITY_THRESHOLD) :
    is_task_urgent cfg now td = true ↔
      priorityAtThreshold cfg td ∨ deadlineInWindow cfg now td := by
  rw [is_task_urgent, priorityAtThreshold, deadlineInWindow]
  simp only []
  rw [show ∀ (b : Bool) (c : Bool), ((if b then true else c) = true ↔ (b = true ∨ c = true))
      from by intro b c; cases b <;> simp]
  rw [priority_branch_iff cfg.URGENT_PRIORITY_THRESHOLD _ hthr, deadline_branch_iff cfg now _]

/-! ## Importance (`app.py`: `is_task_important`) and claim C2 -/

/-- The accepted truthy tokens of the importance flags. -/
def importantTokens : List String := ["1", "true", "yes", "важно", "important", "y"]

/-- `is_task_important`, following the source's sequential checks:
status-text marker, `IMPORTANT` flag, `isImportant` flag, reserved
`STATUS_ID` codes 2/3, and in-progress status `"2"` with priority ≥ 2. -/
def is_task_important (task_data : List (String × PyVal)) : Bool :=
  let status := chainGet task_data ["STATUS", "status", "Status"]
  let important := chainGet task_data ["IMPORTANT", "important", "Important"]
  let status_id := chainGet task_data ["STATUS_ID", "statusId", "status_id"]
  if (match status with
      | .str s => containsSub "important".data (pyLower s).data
          || containsSub "важно".data (pyLower s).data
      | _ => false) then true
  else if pyTruthy important && importantTokens.contains (pyLower (pyStr important)) then
    true
  else
    let is_important := chainGet task_data ["isImportant", "IS_IMPORTANT", "is_important"]
    if pyTruthy is_important &&
        ((match is_important with | .bool b => b | _ => false)
          || importantTokens.contains (pyLower (pyStr is_important))) then true
    else if pyTruthy status_id && (pyStr status_id == "2" || pyStr status_id == "3") then
      true
    else if pyStr status == "2" || pyStr status_id == "2" then
      let priority := chainGet task_data ["PRIORITY", "priority", "Priority"]
      match (if pyTruthy priority then pyToInt priority else Option.some 0) with
      | Option.some n => decide ((2 : Int) ≤ n)
      | Option.none => false
    else false

/-- Spec side: a status field's text contains "important" in any letter
case, or contains "важно". -/
def statusMarker (td : List (String × PyVal)) : Prop :=
  ∃ s, chainGet td ["STATUS", "status", "Status"] = .str s ∧
    (containsSub "important".data (pyLower s).data = true ∨
      containsSub "важно".data (pyLower s).data = true)

/-- Spec side: the explicit `IMPORTANT` flag equals an accepted truthy
token. -/
def importantFlagSet (td : List (String × PyVal)) : Prop :=
  pyTruthy (chainGet td ["IMPORTANT", "important", "Important"]) = true ∧
    pyLower (pyStr (chainGet td ["IMPORTANT", "important", "Important"])) ∈ importantTokens

/-- Spec side: the explicit `isImportant` flag is boolean true or equals
an accepted truthy token. -/
def isImportantFlagSet (td : List (String × PyVal)) : Prop :=
  pyTruthy (chainGet td ["isImportant", "IS_IMPORTANT", "is_important"]) = true ∧
    (chainGet td ["isImportant", "IS_IMPORTANT", "is_important"] = .bool true ∨
      pyLower (pyStr (chainGet td ["isImportant", "IS_IMPORTANT", "is_important"]))
        ∈ importantTokens)

/-- Spec side: the status-code field equals one of the reserved codes. -/
def reservedStatusCode (td : List (String × PyVal)) : Prop :=
  pyTruthy (chainGet td ["STATUS_ID", "statusId", "status_id"]) = true ∧
    (pyStr (chainGet td ["STATUS_ID", "statusId", "status_id"]) = "2" ∨
      pyStr (chainGet td ["STATUS_ID", "statusId", "status_id"]) = "3")

/-- Spec side: status equals the in-progress code "2" with priority at
or above the threshold 2. -/
def inProgressHighPriority (td : List (String × PyVal)) : Prop :=
  (pyStr (chainGet td ["STATUS", "status", "Status"]) = "2" ∨
    pyStr (chainGet td ["STATUS_ID", "statusId", "status_id"]) = "2") ∧
  ∃ n, pyToInt (chainGet td ["PRIORITY", "priority", "Priority"]) = Option.some n ∧
    (2 : Int) ≤ n

theorem if_true_else_iff (b c : Bool) :
    ((if b then true else c) = true) ↔ (b = true ∨ c = true) := by
  cases b <;> simp

theorem if_else_false_iff (b c : Bool) :
    ((if b then c else false) = true) ↔ (b = true ∧ c = true) := by
  cases b <;> simp

theorem status_marker_branch_iff (td : List (String × PyVal)) :
    ((match chainGet td ["STATUS", "status", "Status"] with
      | .str s => containsSub "important".data (pyLower s).data
          || containsSub "важно".data (pyLower s).data
      | _ => false) = true) ↔ statusMarker td := by
  rw [statusMarker]
  cases h : chainGet td ["STATUS", "status", "Status"] <;> simp [h]

/-- C2: the importance predicate holds exactly when a status field's
text contains "important" (any case) or "важно", or an importance flag
equals an accepted truthy token (or is boolean true), or the status
code equals a reserved code (2 or 3), or the status equals the
in-progress code "2" with priority at or above the threshold 2; absent
all markers it is false. -/
theorem is_task_important_iff (td : List (String × PyVal)) :
    is_task_important td = true ↔
      statusMarker td ∨ importantFlagSet td ∨ isImportantFlagSet td ∨
        reservedStatusCode td ∨ inProgressHighPriority td := by
  rw [is_task_important]
  simp only []
  rw [if_true_else_iff, if_true_else_iff, if_true_else_iff, if_true_else_iff,
    if_else_false_iff]
  rw [status_marker_branch_iff]
  constructor
  · rintro (h | h | h | h | h)
    · exact Or.inl h
    · refine Or.inr (Or.inl ?_)
      rw [Bool.and_eq_true] at h
      exact ⟨h.1, List.elem_iff.mp h.2⟩
    · refine Or.inr (Or.inr (Or.inl ?_))
      rw [Bool.and_eq_true, Bool.or_eq_true] at h
      refine ⟨h.1, ?_⟩
      rcases h.2 with h2 | h2
      · left
        cases hv : chainGet td ["isImportant", "IS_IMPORTANT", "is_important"] <;>
          rw [hv] at h2 <;> simp_all
      · exact Or.inr (List.elem_iff.mp h2)
    · refine Or.inr (Or.inr (Or.inr (Or.inl ?_)))
      rw [Bool.and_eq_true, Bool.or_eq_true, beq_iff_eq, beq_iff_eq] at h
      exact h
    · refine Or.inr (Or.inr (Or.inr (Or.inr ?_)))
      obtain ⟨h1, h2⟩ := h
      rw [Bool.or_eq_true, beq_iff_eq, beq_iff_eq] at h1
      exact ⟨h1, (priority_branch_iff 2 _ (by omega)).mp h2⟩
  · rintro (h | h | h | h | h)
    · exact Or.inl h
    · refine Or.inr (Or.inl ?_)
      rw [Bool.and_eq_true]
      exact ⟨h.1, List.elem_iff.mpr h.2⟩
    · refine Or.inr (Or.inr (Or.inl ?_))
      rw [Bool.and_eq_true, Bool.or_eq_true]
      refine ⟨h.1, ?_⟩
      rcases h.2 with h2 | h2
      · exact Or.inl (by rw [h2])
      · exact Or.inr (List.elem_iff.mpr h2)
    · refine Or.inr (Or.inr (Or.inr (Or.inl ?_)))
      rw [Bool.and_eq_true, Bool.or_eq_true, beq_iff_eq, beq_iff_eq]
      exact h
    · refine Or.inr (Or.inr (Or.inr (Or.inr ?_)))
      obtain ⟨h1, h2⟩ := h
      refine ⟨?_, (priority_branch_iff 2 _ (by omega)).mpr h2⟩
      rw [Bool.or_eq_true, beq_iff_eq, beq_iff_eq]
      exact h1

/-- Witness instantiating C1 on a concrete configuration and task. -/
theorem is_task_urgent_iff_witness :
    (0 < (⟨2, 24, "", ""⟩ : Config).URGENT_PRIORITY_THRESHOLD) ∧
    (is_task_urgent ⟨2, 24, "", ""⟩ 0 [("PRIORITY", .str "3")] = true ↔
      priorityAtThreshold ⟨2, 24, "", ""⟩ [("PRIORITY", .str "3")] ∨
      deadlineInWindow ⟨2, 24, "", ""⟩ 0 [("PRIORITY", .str "3")]) :=
  ⟨by decide, is_task_urgent_iff ⟨2, 24, "", ""⟩ 0 [("PRIORITY", .str "3")] (by decide)⟩

/-! ## Payload normalizer (`app.py`: `extract_task_data`) and claim C3 -/

/-- Computations that can raise a Python exception (attribute/type
errors on `.get` or item assignment applied to a non-dict). -/
abbrev PyM := Except String

/-- `v.get(k)`: raises unless `v` is a dict. -/
def jGet (v : PyVal) (k : String) : PyM (Option PyVal) :=
  match v with
  | .dict d => .ok (d.lookup k)
  | _ => .error "AttributeError"

/-- `v.get(k, dflt)`. -/
def jGetD (v : PyVal) (k : String) (dflt : PyVal) : PyM PyVal := do
  let r ← jGet v k
  pure (r.getD dflt)

/-- The Canonical Task Record produced by the normalizer. -/
structure TaskRecord where
  id : String
  title : String
  priority : String
  deadline : String
  responsible_id : String
  responsible_name : String
  creator_id : String
  creator_name : String
  status : String
  link : String
  raw_data : List (String × PyVal)

/-- The canonical fields of a record, without the opaque raw-payload
reference kept for diagnostics. -/
structure TaskCore where
  id : String
  title : String
  priority : String
  deadline : String
  responsible_id : String
  responsible_name : String
  creator_id : String
  creator_name : String
  status : String
  link : String
  deriving Repr, DecidableEq

def TaskRecord.core (r : TaskRecord) : TaskCore :=
  ⟨r.id, r.title, r.priority, r.deadline, r.responsible_id, r.responsible_name,
    r.creator_id, r.creator_name, r.status, r.link⟩

/-- Python `str.replace` (all occurrences, left to right). -/
def replaceList (pat rep : List Char) : List Char → List Char
  | [] => []
  | c :: cs =>
    if pat ≠ [] ∧ pat.isPrefixOf (c :: cs) then
      rep ++ replaceList pat rep (cs.drop (pat.length - 1))
    else c :: replaceList pat rep cs
termination_by l => l.length
decreasing_by
  · simp; omega
  · simp

def pyReplace (s pat rep : String) : String := ⟨replaceList pat.data rep.data s.data⟩

/-- `domain.replace("https://", "").replace("http://", "")`. -/
def stripScheme (domain : String) : String :=
  pyReplace (pyReplace domain "https://" "") "http://" ""

/-- Field extraction from the located task dict (the body of
`extract_task_data` after the task sub-structure has been chosen). -/
def extractFields (cfg : Config) (task : List (String × PyVal)) : TaskRecord :=
  let task_id := chainGet task ["ID", "id"]
  let title := chainGet task ["TITLE", "title"]
  let priority := chainGet task ["PRIORITY", "priority"]
  let deadline := chainGet task ["DEADLINE", "deadline"]
  let responsible_id := chainGet task ["RESPONSIBLE_ID", "responsible_id", "responsibleId"]
  let responsible_name :=
    chainGet task ["RESPONSIBLE_NAME", "responsible_name", "responsibleName"]
  let rpair :=
    if !(pyTruthy responsible_name) && (task.lookup "responsible").isSome then
      match (task.lookup "responsible").getD (.dict []) with
      | .dict ro =>
        ((if !(pyTruthy responsible_id) then (ro.lookup "id").getD (.str "")
          else responsible_id),
         (ro.lookup "name").getD (.str ""))
      | _ => (responsible_id, responsible_name)
    else (responsible_id, responsible_name)
  let creator_id := chainGet task ["CREATED_BY", "created_by", "createdBy"]
  let creator_name := chainGet task ["CREATED_BY_NAME", "created_by_name", "createdByName"]
  let cpair :=
    if !(pyTruthy creator_name) && (task.lookup "creator").isSome then
      match (task.lookup "creator").getD (.dict []) with
      | .dict co =>
        ((if !(pyTruthy creator_id) then (co.lookup "id").getD (.str "")
          else creator_id),
         (co.lookup "name").getD (.str ""))
      | _ => (creator_id, creator_name)
    else (creator_id, creator_name)
  let status := chainGet task ["STATUS", "status"]
  let task_link :=
    if cfg.BITRIX24_DOMAIN != "" then
      "https://" ++ stripScheme cfg.BITRIX24_DOMAIN ++ "/company/personal/user/" ++
        pyStr rpair.1 ++ "/tasks/task/view/" ++ pyStr task_id ++ "/"
    else "#task_" ++ pyStr task_id
  { id := pyStr task_id
    title := if pyTruthy title then pyStr title else "Без названия"
    priority := pyStr priority
    deadline := if pyTruthy deadline then pyStr deadline else ""
    responsible_id := pyStr rpair.1
    responsible_name := if pyTruthy rpair.2 then pyStr rpair.2 else pyStr rpair.1
    creator_id := pyStr cpair.1
    creator_name := if pyTruthy cpair.2 then pyStr cpair.2 else pyStr cpair.1
    status := pyStr status
    link := task_link
    raw_data := task }

/-- `extract_task_data`: locate the task-bearing sub-structure (the
`data` envelope's `FIELDS_AFTER`, else the `data` body; the literal
string "undefined" counts as absent; no fallback to the payload root),
then extract and normalize the fields. -/
def extract_task_data (cfg : Config) (webhook_data : PyVal) : PyM (Option TaskRecord) := do
  let data_section ← jGetD webhook_data "data" (.dict [])
  if !(pyTruthy data_section) then
    return Option.none
  else
    let fa ← jGet data_section "FIELDS_AFTER"
    let task0 := fa.getD PyVal.none
    let task := if !(pyTruthy task0) || pyEq task0 (.str "undefined") then data_section
      else task0
    if !(pyTruthy task) || pyEq task (.str "undefined") ||
        (match task with | .str s => pyLower s == "undefined" | _ => false) then
      return Option.none
    else
      match task with
      | .dict td => return Option.some (extractFields cfg td)
      | _ => .error "AttributeError"

/-! Form-data unflattening (`webhook_tasks`, the bracket-notation
branch): `key.replace("]", "").split("[")`, then walk the path creating
intermediate dicts. -/

def splitKeyParts (sep : Char) : List Char → List (List Char)
  | [] => [[]]
  | c :: cs =>
    let rest := splitKeyParts sep cs
    if c = sep then [] :: rest
    else
      match rest with
      | r :: rs => (c :: r) :: rs
      | [] => [[c]]

def parseBracketKey (k : String) : List String :=
  (splitKeyParts '[' (k.data.filter (fun c => c ≠ ']'))).map (fun cs => ⟨cs⟩)

/-- Python dict assignment on `PyVal` dicts. -/
def dictSetPy (d : List (String × PyVal)) (k : String) (v : PyVal) : List (String × PyVal) :=
  match d with
  | [] => [(k, v)]
  | (k', v') :: rest => if k' = k then (k, v) :: rest else (k', v') :: dictSetPy rest k v

/-- Walk one bracket path, creating intermediate dicts; `Option.none`
models the `TypeError` of indexing into a non-dict leaf. -/
def insertPath (d : List (String × PyVal)) :
    List String → String → Option (List (String × PyVal))
  | [], _ => Option.none
  | [k], v => Option.some (dictSetPy d k (.str v))
  | k :: k' :: ks, v =>
    match d.lookup k with
    | Option.some (.dict sub) =>
      (insertPath sub (k' :: ks) v).map (fun s => dictSetPy d k (.dict s))
    | Option.some _ => Option.none
    | Option.none =>
      (insertPath [] (k' :: ks) v).map (fun s => dictSetPy d k (.dict s))

/-- The form-data loop: fold every `(bracket key, value)` pair into the
reconstructed nested payload. -/
def unflattenForm (pairs : List (String × String)) : Option (List (String × PyVal)) :=
  pairs.foldlM (fun d kv => insertPath d (parseBracketKey kv.1) kv.2) []

/-! ### Claim C3: the accepted payload shapes -/

/-- Flat upper-case task fields. -/
def upperFields (i t p dl rid rn ci cn st : String) : List (String × PyVal) :=
  [("ID", .str i), ("TITLE", .str t), ("PRIORITY", .str p), ("DEADLINE", .str dl),
   ("RESPONSIBLE_ID", .str rid), ("RESPONSIBLE_NAME", .str rn),
   ("CREATED_BY", .str ci), ("CREATED_BY_NAME", .str cn), ("STATUS", .str st)]

/-- Flat camelCase task fields carrying the same content. -/
def camelFields (i t p dl rid rn ci cn st : String) : List (String × PyVal) :=
  [("id", .str i), ("title", .str t), ("priority", .str p), ("deadline", .str dl),
   ("responsibleId", .str rid), ("responsibleName", .str rn),
   ("createdBy", .str ci), ("createdByName", .str cn), ("status", .str st)]

/-- Bracket-notation form fields carrying the same content. -/
def bracketPairs (i t p dl rid rn ci cn st : String) : List (String × String) :=
  [("data[FIELDS_AFTER][ID]", i), ("data[FIELDS_AFTER][TITLE]", t),
   ("data[FIELDS_AFTER][PRIORITY]", p), ("data[FIELDS_AFTER][DEADLINE]", dl),
   ("data[FIELDS_AFTER][RESPONSIBLE_ID]", rid), ("data[FIELDS_AFTER][RESPONSIBLE_NAME]", rn),
   ("data[FIELDS_AFTER][CREATED_BY]", ci), ("data[FIELDS_AFTER][CREATED_BY_NAME]", cn),
   ("data[FIELDS_AFTER][STATUS]", st)]

/-- Task fields under the event-data envelope's `FIELDS_AFTER`. -/
def envelopeFA (f : List (String × PyVal)) : PyVal :=
  .dict [("data", .dict [("FIELDS_AFTER", .dict f)])]

/-- Task fields directly under the event-data envelope. -/
def envelopeDirect (f : List (String × PyVal)) : PyVal := .dict [("data", .dict f)]

/-- C3 fails as stated: a flat upper-case payload carrying its task
fields at the payload root (no event-data envelope) yields the no-task
signal, while the same content under the envelope yields a canonical
record — the normalizer has no payload-root fallback, so the two
accepted-by-the-claim shapes do not produce identical records. -/
theorem extract_root_shape_differs :
    extract_task_data ⟨2, 24, "", ""⟩
        (.dict (upperFields "12" "T" "2" "2024-01-02" "200" "R" "100" "C" "2"))
      = .ok Option.none ∧
    extract_task_data ⟨2, 24, "", ""⟩
        (envelopeFA (upperFields "12" "T" "2" "2024-01-02" "200" "R" "100" "C" "2"))
      = .ok (Option.some (extractFields ⟨2, 24, "", ""⟩
          (upperFields "12" "T" "2" "2024-01-02" "200" "R" "100" "C" "2"))) ∧
    (Except.ok Option.none : PyM (Option TaskRecord)) ≠
      .ok (Option.some (extractFields ⟨2, 24, "", ""⟩
          (upperFields "12" "T" "2" "2024-01-02" "200" "R" "100" "C" "2"))) := by
  refine ⟨rfl, rfl, ?_⟩
  intro h
  simp at h

/-- C3 (amended): for task content carried inside the event-data
envelope — upper-case fields under `FIELDS_AFTER`, camelCase fields
under `FIELDS_AFTER`, fields directly under the envelope body, and the
nested structure reconstructed from bracket-notation form keys — the
normalizer succeeds and the canonical records agree on every canonical
field (the opaque raw-payload reference aside); the locator prefers
`FIELDS_AFTER` over the envelope body, treats the literal string
"undefined" as absent, and yields the no-task signal when the envelope
is absent (there is no payload-root fallback). -/
theorem extract_task_data_shape_equiv (cfg : Config) (i t p dl rid rn ci cn st : String)
    (hi : i ≠ "") (ht : t ≠ "") (hp : p ≠ "") (hdl : dl ≠ "") (hrid : rid ≠ "")
    (hrn : rn ≠ "") (hci : ci ≠ "") (hcn : cn ≠ "") (hst : st ≠ "") :
    extract_task_data cfg (envelopeFA (upperFields i t p dl rid rn ci cn st))
      = .ok (Option.some (extractFields cfg (upperFields i t p dl rid rn ci cn st))) ∧
    extract_task_data cfg (envelopeFA (camelFields i t p dl rid rn ci cn st))
      = .ok (Option.some (extractFields cfg (camelFields i t p dl rid rn ci cn st))) ∧
    extract_task_data cfg (envelopeDirect (upperFields i t p dl rid rn ci cn st))
      = .ok (Option.some (extractFields cfg (upperFields i t p dl rid rn ci cn st))) ∧
    unflattenForm (bracketPairs i t p dl rid rn ci cn st)
      = Option.some [("data", .dict [("FIELDS_AFTER",
          .dict (upperFields i t p dl rid rn ci cn st))])] ∧
    (extractFields cfg (upperFields i t p dl rid rn ci cn st)).core
      = (extractFields cfg (camelFields i t p dl rid rn ci cn st)).core ∧
    (∀ (f rest : List (String × PyVal)) (a : String × PyVal),
      extract_task_data cfg (.dict [("data", .dict (("FIELDS_AFTER", .dict (a :: f)) :: rest))])
        = .ok (Option.some (extractFields cfg (a :: f)))) ∧
    (∀ (rest : List (String × PyVal)),
      extract_task_data cfg
          (.dict [("data", .dict (("FIELDS_AFTER", .str "undefined") :: rest))])
        = .ok (Option.some (extractFields cfg (("FIELDS_AFTER", .str "undefined") :: rest)))) ∧
    (∀ (d : List (String × PyVal)), d.lookup "data" = Option.none →
      extract_task_data cfg (.dict d) = .ok Option.none) := by
  refine ⟨rfl, rfl, rfl, rfl, ?_, fun f rest a => rfl, fun rest => rfl, fun d hd => ?_⟩
  · have hi' : (i != "") = true := bne_iff_ne.mpr hi
    have ht' : (t != "") = true := bne_iff_ne.mpr ht
    have hp' : (p != "") = true := bne_iff_ne.mpr hp
    have hdl' : (dl != "") = true := bne_iff_ne.mpr hdl
    have hrid' : (rid != "") = true := bne_iff_ne.mpr hrid
    have hrn' : (rn != "") = true := bne_iff_ne.mpr hrn
    have hci' : (ci != "") = true := bne_iff_ne.mpr hci
    have hcn' : (cn != "") = true := bne_iff_ne.mpr hcn
    have hst' : (st != "") = true := bne_iff_ne.mpr hst
    simp [extractFields, upperFields, camelFields, chainGet, List.lookup, pyTruthy,
      TaskRecord.core, pyStr, hi', ht', hp', hdl', hrid', hrn', hci', hcn', hst']
  · simp only [extract_task_data, jGetD, jGet, hd]
    rfl

/-- Witness instantiating C3's amended shape-equivalence theorem on
concrete task content. -/
theorem extract_task_data_shape_equiv_witness :
    ("12" ≠ "" ∧ "T" ≠ "" ∧ "2" ≠ "" ∧ "2024-01-02" ≠ "" ∧ "200" ≠ "" ∧
      "R" ≠ "" ∧ "100" ≠ "" ∧ "C" ≠ "" ∧ "5" ≠ "") ∧
    ((extractFields ⟨2, 24, "", ""⟩ (upperFields "12" "T" "2" "2024-01-02" "200" "R" "100" "C" "5")).core
      = (extractFields ⟨2, 24, "", ""⟩ (camelFields "12" "T" "2" "2024-01-02" "200" "R" "100" "C" "5")).core) :=
  ⟨⟨by decide, by decide, by decide, by decide, by decide, by decide, by decide,
      by decide, by decide⟩,
    (extract_task_data_shape_equiv ⟨2, 24, "", ""⟩ "12" "T" "2" "2024-01-02" "200" "R"
      "100" "C" "5" (by decide) (by decide) (by decide) (by decide) (by decide)
      (by decide) (by decide) (by decide) (by decide)).2.2.2.2.1⟩

/-! ## Notification rendering (`telegram_bot.py`: `send_task_notification`)
and claim C8 -/

/-- `escape_html` from the dispatcher: empty text short-circuits,
otherwise `&`, `<`, `>` are replaced in that order. -/
def escape_html (text : String) : String :=
  if text = "" then ""
  else pyReplace (pyReplace (pyReplace text "&" "&amp;") "<" "&lt;") ">" "&gt;"

/-- The message template of `send_task_notification` (the two event
kinds differ only in the lead sentence; priority and deadline are
formatted by the source but never interpolated into the message). -/
def renderMessage (task_data : TaskRecord) (event_type : String) : String :=
  let title := escape_html task_data.title
  let creator := escape_html task_data.creator_name
  let link := task_data.link
  if event_type == "new" then
    "🔴 <b>Срочная задача</b>\n\nОт: " ++ creator ++
      "\n\nНаименование задачи: <b>" ++ title ++
      "</b>\n\nДетальная информация по ссылке: <a href=\"" ++ link ++
      "\">Открыть задачу</a>\n"
  else
    "🔴 По срочной задаче поступило обновление\n\nОт: " ++ creator ++
      "\n\nНаименование задачи: <b>" ++ title ++
      "</b>\n\nДетальная информация по ссылке: <a href=\"" ++ link ++
      "\">Открыть задачу</a>\n"

theorem mem_replaceList (pat rep : List Char) :
    ∀ (l : List Char) (x : Char), x ∈ replaceList pat rep l → x ∈ l ∨ x ∈ rep := by
  have H : ∀ (n : Nat) (l : List Char), l.length ≤ n →
      ∀ x, x ∈ replaceList pat rep l → x ∈ l ∨ x ∈ rep := by
    intro n
    induction n with
    | zero =>
      intro l hl x hx
      have : l = [] := List.length_eq_zero.mp (Nat.le_zero.mp hl)
      subst this
      simp [replaceList] at hx
    | succ n ihn =>
      intro l hl x hx
      cases l with
      | nil => simp [replaceList] at hx
      | cons c cs =>
        rw [replaceList] at hx
        by_cases hc : pat ≠ [] ∧ pat.isPrefixOf (c :: cs)
        · rw [if_pos hc] at hx
          rcases List.mem_append.mp hx with h | h
          · exact Or.inr h
          · rcases ihn (cs.drop (pat.length - 1)) (by simp at hl ⊢; omega) x h with h' | h'
            · exact Or.inl (List.mem_cons_of_mem c (List.mem_of_mem_drop h'))
            · exact Or.inr h'
        · rw [if_neg hc] at hx
          rcases List.mem_cons.mp hx with h | h
          · exact Or.inl (by rw [h]; exact List.mem_cons_self c cs)
          · rcases ihn cs (by simp at hl; omega) x h with h' | h'
            · exact Or.inl (List.mem_cons_of_mem c h')
            · exact Or.inr h'
  exact fun l x => H l.length l le_rfl x

theorem not_mem_replaceList_self (c : Char) (rep : List Char) (hc : c ∉ rep) :
    ∀ l : List Char, c ∉ replaceList [c] rep l := by
  intro l
  induction l with
  | nil => simp [replaceList]
  | cons d cs ih =>
    rw [replaceList]
    by_cases hd : ([c] : List Char).isPrefixOf (d :: cs)
    · rw [if_pos ⟨by simp, hd⟩]
      intro hmem
      rcases List.mem_append.mp hmem with h | h
      · exact hc h
      · exact ih (by simpa using h)
    · rw [if_neg (by simp [hd])]
      intro hmem
      rcases List.mem_cons.mp hmem with h | h
      · exact hd (by simp [List.isPrefixOf, h])
      · exact ih h

theorem escape_html_no_angle (s : String) :
    '<' ∉ (escape_html s).data ∧ '>' ∉ (escape_html s).data := by
  rw [escape_html]
  by_cases h : s = ""
  · simp [h]
  · rw [if_neg h]
    constructor
    · intro hmem
      rcases mem_replaceList _ _ _ _ hmem with h1 | h1
      · exact not_mem_replaceList_self '<' "&lt;".data (by decide) _ h1
      · exact absurd h1 (by decide)
    · exact not_mem_replaceList_self '>' "&gt;".data (by decide) _

/-- C8: for both event kinds, the rendered message interpolates the
HTML-escaped title and creator name (each `&`, `<`, `>` replaced), and
an escaped field contains no unescaped angle-bracket markup at all. -/
theorem renderMessage_escapes (td : TaskRecord) (e : String) :
    (e = "new" →
      renderMessage td e =
        "🔴 <b>Срочная задача</b>\n\nОт: " ++ escape_html td.creator_name ++
          "\n\nНаименование задачи: <b>" ++ escape_html td.title ++
          "</b>\n\nДетальная информация по ссылке: <a href=\"" ++ td.link ++
          "\">Открыть задачу</a>\n") ∧
    (e ≠ "new" →
      renderMessage td e =
        "🔴 По срочной задаче поступило обновление\n\nОт: " ++ escape_html td.creator_name ++
          "\n\nНаименование задачи: <b>" ++ escape_html td.title ++
          "</b>\n\nДетальная информация по ссылке: <a href=\"" ++ td.link ++
          "\">Открыть задачу</a>\n") ∧
    (∀ s : String, '<' ∉ (escape_html s).data ∧ '>' ∉ (escape_html s).data) := by
  refine ⟨?_, ?_, escape_html_no_angle⟩
  · intro he
    rw [renderMessage, if_pos (by simp [he])]
  · intro he
    rw [renderMessage, if_neg (by simp [he])]

/-- Witness instantiating C8 on a concrete record whose title and
creator carry markup characters. -/
theorem renderMessage_escapes_witness :
    (("new" : String) = "new") ∧
    renderMessage ⟨"1", "Ti<tle>", "2", "", "200", "R", "100", "R&D", "2", "#task_1", []⟩ "new" =
      "🔴 <b>Срочная задача</b>\n\nОт: " ++ escape_html "R&D" ++
        "\n\nНаименование задачи: <b>" ++ escape_html "Ti<tle>" ++
        "</b>\n\nДетальная информация по ссылке: <a href=\"" ++ "#task_1" ++
        "\">Открыть задачу</a>\n" :=
  ⟨rfl, (renderMessage_escapes ⟨"1", "Ti<tle>", "2", "", "200", "R", "100", "R&D", "2",
    "#task_1", []⟩ "new").1 rfl⟩

/-! ## CRM data fetch (`app.py`: `get_task_from_bitrix24`) and claim C9 -/

inductive AuthType where
  | incoming
  | oauth
  | app_token
  | config_token
  deriving Repr, DecidableEq

structure AuthMethod where
  ty : AuthType
  url : String
  params : List (String × String)

/-- The ordered `auth_methods` list the source builds: path-embedded
incoming-webhook credential (config token of the form `user/token`),
OAuth access token from the event payload, application token from the
event payload, then the static config token (when it is not of the
incoming form). -/
def auth_methods (cfg : Config) (auth_data : List (String × PyVal))
    (task_id : String) : List AuthMethod :=
  let domain := stripScheme cfg.BITRIX24_DOMAIN
  let m1 : List AuthMethod :=
    if cfg.BITRIX24_AUTH_TOKEN != "" && cfg.BITRIX24_AUTH_TOKEN.data.contains '/' then
      match splitKeyParts '/' cfg.BITRIX24_AUTH_TOKEN.data with
      | [u, tk] =>
        [⟨.incoming, "https://" ++ domain ++ "/rest/" ++ ⟨u⟩ ++ "/" ++ (⟨tk⟩ : String) ++
          "/tasks.task.get", [("taskId", task_id)]⟩]
      | _ => []
    else []
  let access_token := (auth_data.lookup "access_token").getD PyVal.none
  let m2 : List AuthMethod :=
    if pyTruthy access_token then
      [⟨.oauth, "https://" ++ domain ++ "/rest/tasks.task.get",
        [("auth", pyStr access_token), ("taskId", task_id)]⟩]
    else []
  let app_token := (auth_data.lookup "application_token").getD PyVal.none
  let m3 : List AuthMethod :=
    if pyTruthy app_token then
      [⟨.app_token, "https://" ++ domain ++ "/rest/tasks.task.get",
        [("auth", pyStr app_token), ("taskId", task_id)]⟩]
    else []
  let m4 : List AuthMethod :=
    if cfg.BITRIX24_AUTH_TOKEN != "" && !cfg.BITRIX24_AUTH_TOKEN.data.contains '/' then
      [⟨.config_token, "https://" ++ domain ++ "/rest/tasks.task.get",
        [("auth", cfg.BITRIX24_AUTH_TOKEN), ("taskId", task_id)]⟩]
    else []
  m1 ++ m2 ++ m3 ++ m4

/-- Outcome of one network attempt: either a successful, well-formed
response containing a task, or anything the loop `continue`s over (an
error field, a missing `result.task`, an HTTP error or an exception). -/
inductive FetchOutcome where
  | task (t : List (String × PyVal))
  | failure

/-- The attempt loop: first scheme whose response carries a task wins. -/
def tryAuthMethods (oracle : AuthType → FetchOutcome) :
    List AuthMethod → Option (List (String × PyVal))
  | [] => Option.none
  | m :: rest =>
    match oracle m.ty with
    | .task t => Option.some t
    | .failure => tryAuthMethods oracle rest

/-- `get_task_from_bitrix24` with the network abstracted by `oracle`. -/
def get_task_from_bitrix24 (cfg : Config) (auth_data : List (String × PyVal))
    (task_id : String) (oracle : AuthType → FetchOutcome) :
    Option (List (String × PyVal)) :=
  if task_id = "" then Option.none
  else tryAuthMethods oracle (auth_methods cfg auth_data task_id)

/-- Spec side: the scheme sequence with unavailable credentials
skipped. -/
def availableSchemes (cfg : Config) (auth_data : List (String × PyVal)) : List AuthType :=
  ([AuthType.incoming, .oauth, .app_token, .config_token]).filter (fun ty =>
    match ty with
    | .incoming => cfg.BITRIX24_AUTH_TOKEN != "" &&
        cfg.BITRIX24_AUTH_TOKEN.data.contains '/' &&
        (splitKeyParts '/' cfg.BITRIX24_AUTH_TOKEN.data).length == 2
    | .oauth => pyTruthy ((auth_data.lookup "access_token").getD PyVal.none)
    | .app_token => pyTruthy ((auth_data.lookup "application_token").getD PyVal.none)
    | .config_token => cfg.BITRIX24_AUTH_TOKEN != "" &&
        !cfg.BITRIX24_AUTH_TOKEN.data.contains '/')

def isTaskOutcome (oracle : AuthType → FetchOutcome) (ty : AuthType) : Bool :=
  match oracle ty with
  | .task _ => true
  | .failure => false

theorem tryAuthMethods_eq_find (oracle : AuthType → FetchOutcome) (ms : List AuthMethod) :
    tryAuthMethods oracle ms =
      match (ms.map AuthMethod.ty).find? (isTaskOutcome oracle) with
      | Option.some ty =>
        (match oracle ty with | .task t => Option.some t | .failure => Option.none)
      | Option.none => Option.none := by
  induction ms with
  | nil => rfl
  | cons m rest ih =>
    rw [tryAuthMethods, List.map_cons, List.find?_cons]
    cases ho : oracle m.ty with
    | task t => simp [isTaskOutcome, ho]
    | failure => simp [isTaskOutcome, ho, ih]

theorem auth_methods_types (cfg : Config) (auth_data : List (String × PyVal))
    (task_id : String) :
    (auth_methods cfg auth_data task_id).map AuthMethod.ty =
      availableSchemes cfg auth_data := by
  rw [auth_methods, availableSchemes]
  by_cases hne : cfg.BITRIX24_AUTH_TOKEN = ""
  · have h1 : (cfg.BITRIX24_AUTH_TOKEN != "") = false := by simp [hne]
    by_cases h2 : pyTruthy ((auth_data.lookup "access_token").getD PyVal.none) = true <;>
    by_cases h3 : pyTruthy ((auth_data.lookup "application_token").getD PyVal.none) = true <;>
    simp [h1, h2, h3, List.filter]
  · have h1 : (cfg.BITRIX24_AUTH_TOKEN != "") = true := by simp [hne]
    by_cases hsl : cfg.BITRIX24_AUTH_TOKEN.data.contains '/' = true
    · have hmem : '/' ∈ cfg.BITRIX24_AUTH_TOKEN.data := by simpa using hsl
      rcases hs : splitKeyParts '/' cfg.BITRIX24_AUTH_TOKEN.data with _ | ⟨a, _ | ⟨b, _ | ⟨c, l⟩⟩⟩ <;>
      by_cases h2 : pyTruthy ((auth_data.lookup "access_token").getD PyVal.none) = true <;>
      by_cases h3 : pyTruthy ((auth_data.lookup "application_token").getD PyVal.none) = true <;>
      simp [h1, hsl, hs, h2, h3, hmem, List.filter]
    · have hsl' : cfg.BITRIX24_AUTH_TOKEN.data.contains '/' = false := by
        simpa using hsl
      have hmem : '/' ∉ cfg.BITRIX24_AUTH_TOKEN.data := by simpa using hsl
      by_cases h2 : pyTruthy ((auth_data.lookup "access_token").getD PyVal.none) = true <;>
      by_cases h3 : pyTruthy ((auth_data.lookup "application_token").getD PyVal.none) = true <;>
      simp [h1, hsl', h2, h3, hmem, List.filter]

/-- C9: the fetch attempts authorization schemes in exactly the order
incoming-webhook credential, payload OAuth token, payload application
token, static config token — skipping schemes whose credential is
absent — returns the task of the first scheme whose response carries
one, and returns none exactly when every available scheme failed. -/
theorem get_task_auth_scheme_order (cfg : Config) (auth_data : List (String × PyVal))
    (task_id : String) (oracle : AuthType → FetchOutcome) (htid : task_id ≠ "") :
    ((auth_methods cfg auth_data task_id).map AuthMethod.ty =
      availableSchemes cfg auth_data) ∧
    (get_task_from_bitrix24 cfg auth_data task_id oracle =
      match (availableSchemes cfg auth_data).find? (isTaskOutcome oracle) with
      | Option.some ty =>
        (match oracle ty with | .task t => Option.some t | .failure => Option.none)
      | Option.none => Option.none) ∧
    (get_task_from_bitrix24 cfg auth_data task_id oracle = Option.none ↔
      ∀ ty ∈ availableSchemes cfg auth_data, isTaskOutcome oracle ty = false) := by
  have hmap := auth_methods_types cfg auth_data task_id
  have heq : get_task_from_bitrix24 cfg auth_data task_id oracle =
      match (availableSchemes cfg auth_data).find? (isTaskOutcome oracle) with
      | Option.some ty =>
        (match oracle ty with | .task t => Option.some t | .failure => Option.none)
      | Option.none => Option.none := by
    rw [get_task_from_bitrix24, if_neg htid, tryAuthMethods_eq_find, hmap]
  refine ⟨hmap, heq, ?_⟩
  rw [heq]
  cases hf : (availableSchemes cfg auth_data).find? (isTaskOutcome oracle) with
  | none =>
    simp only [List.find?_eq_none] at hf
    simpa using fun ty hty => by simpa using hf ty hty
  | some ty =>
    have := List.find?_some hf
    cases ho : oracle ty with
    | task t =>
      simp only [ho]
      constructor
      · intro h; cases h
      · intro hall
        have := hall ty (List.mem_of_find?_eq_some hf)
        rw [isTaskOutcome, ho] at this
        cases this
    | failure => rw [isTaskOutcome, ho] at this; cases this

/-- Witness instantiating C9: the config token is of incoming form, the
payload carries an application token, the incoming scheme fails and the
application-token scheme succeeds. -/
theorem get_task_auth_scheme_order_witness :
    (("77" : String) ≠ "") ∧
    (get_task_from_bitrix24 ⟨2, 24, "d.example", "1/abc"⟩
        [("application_token", .str "apptok")] "77"
        (fun ty => match ty with
          | .app_token => .task [("ID", .str "77")]
          | _ => .failure) =
      match (availableSchemes ⟨2, 24, "d.example", "1/abc"⟩
          [("application_token", .str "apptok")]).find?
          (isTaskOutcome (fun ty => match ty with
            | .app_token => .task [("ID", .str "77")]
            | _ => .failure)) with
      | Option.some ty =>
        (match (fun (ty : AuthType) => match ty with
          | AuthType.app_token => FetchOutcome.task [("ID", .str "77")]
          | _ => FetchOutcome.failure) ty with
          | .task t => Option.some t | .failure => Option.none)
      | Option.none => Option.none) :=
  ⟨by decide,
    (get_task_auth_scheme_order ⟨2, 24, "d.example", "1/abc"⟩
      [("application_token", .str "apptok")] "77"
      (fun ty => match ty with
        | .app_token => .task [("ID", .str "77")]
        | _ => .failure) (by decide)).2.1⟩

/-! ## Webhook handler (`app.py`: `webhook_tasks`) and claim C6 -/

/-- The HTTP outcome of one webhook invocation: status code, the
`message`/`error` text of the JSON body, and whether the messaging
dispatch call was invoked. -/
structure Response where
  status : Nat
  message : String
  dispatched : Bool
  deriving Repr, DecidableEq

/-- `task_fields_after.get("ID", task_fields_after.get("id", ""))`. -/
def tfaTaskId (d : List (String × PyVal)) : PyVal :=
  (d.lookup "ID").getD ((d.lookup "id").getD (.str ""))

/-- Python truthiness of the `get_telegram_chat_id` result
(`if not telegram_chat_id:`): `None` and the empty string are both
falsy, so a stored empty-string chat id counts as no mapping. -/
def chatIdTruthy : Option String → Bool
  | Option.some s => s != ""
  | Option.none => false

/-- The handler body inside the catch-all `try`.  The CRM fetch and the
Telegram send are abstracted: `fetchResult` is what
`get_task_from_bitrix24` returned, `sendOk` what
`send_task_notification` returned. -/
def runWebhookBody (cfg : Config) (now : Int) (store : FileState)
    (fetchResult : Option (List (String × PyVal))) (sendOk : Bool)
    (wd : PyVal) : PyM Response := do
  let data ← jGetD wd "data" (.dict [])
  let tfa0 ← jGetD data "FIELDS_AFTER" (.dict [])
  let tfa := if !(pyTruthy tfa0) || pyEq tfa0 (.str "undefined") then data else tfa0
  let inner ← jGetD tfa "id" (.str "")
  let tid ← jGetD tfa "ID" inner
  if !(pyTruthy tid) then
    return ⟨200, "No task ID", false⟩
  else
    match fetchResult with
    | Option.none => return ⟨200, "Could not fetch task data", false⟩
    | Option.some ftd => runAfterFetch cfg now store sendOk ftd
where
  /-- The handler tail once the CRM fetch has produced `ftd`
  (`full_task_data`): re-extract the canonical record from the wrapped
  task, then run the three filters and resolve the chat mapping. -/
  runAfterFetch (cfg : Config) (now : Int) (store : FileState) (sendOk : Bool)
      (ftd : List (String × PyVal)) : PyM Response := do
    let etd ← extract_task_data cfg (.dict [("data", .dict [("FIELDS_AFTER", .dict ftd)])])
    match etd with
    | Option.none => return ⟨200, "Could not extract task data", false⟩
    | Option.some task_data =>
      if !(is_task_important ftd) then
        return ⟨200, "Task not important", false⟩
      else if !(is_leader store (.str task_data.creator_id)) then
        return ⟨200, "Creator not a leader", false⟩
      else if !(is_task_urgent cfg now ftd) then
        return ⟨200, "Task not urgent", false⟩
      else
        let telegram_chat_id := get_telegram_chat_id store (.str task_data.responsible_id)
        if !(chatIdTruthy telegram_chat_id) then
          return ⟨200, "No Telegram mapping for responsible user", false⟩
        else if sendOk then return ⟨200, "Notification sent", true⟩
        else return ⟨500, "Failed to send notification", true⟩

/-- `webhook_tasks`: `parsed` is the request body after the four parse
attempts (`Option.none` when none succeeded); the catch-all `except`
maps any raised exception to the generic 500. -/
def webhook_tasks (cfg : Config) (now : Int) (store : FileState)
    (fetchResult : Option (List (String × PyVal))) (sendOk : Bool)
    (parsed : Option PyVal) : Response :=
  match parsed with
  | Option.none => ⟨400, "Could not parse request data", false⟩
  | Option.some wd =>
    match runWebhookBody cfg now store fetchResult sendOk wd with
    | .ok r => r
    | .error _ => ⟨500, "Internal server error", false⟩

/-- The canonical event-push payload shape carrying task fields. -/
def wdOf (ftd : List (String × PyVal)) : PyVal :=
  .dict [("data", .dict [("FIELDS_AFTER", .dict ftd)])]

theorem runWebhookBody_envelope (cfg : Config) (now : Int) (store : FileState)
    (fetch : Option (List (String × PyVal))) (sendOk : Bool)
    (a : String × PyVal) (f : List (String × PyVal))
    (htid : pyTruthy (tfaTaskId (a :: f)) = true) :
    runWebhookBody cfg now store fetch sendOk (wdOf (a :: f)) =
      match fetch with
      | Option.none => .ok ⟨200, "Could not fetch task data", false⟩
      | Option.some ftd => runWebhookBody.runAfterFetch cfg now store sendOk ftd := by
  rw [show runWebhookBody cfg now store fetch sendOk (wdOf (a :: f)) =
      (if !(pyTruthy (tfaTaskId (a :: f))) then .ok ⟨200, "No task ID", false⟩
       else match fetch with
         | Option.none => .ok ⟨200, "Could not fetch task data", false⟩
         | Option.some ftd => runWebhookBody.runAfterFetch cfg now store sendOk ftd)
    from rfl, htid]
  simp

theorem runAfterFetch_cons (cfg : Config) (now : Int) (store : FileState) (sendOk : Bool)
    (b : String × PyVal) (g : List (String × PyVal)) :
    runWebhookBody.runAfterFetch cfg now store sendOk (b :: g) =
      (if !(is_task_important (b :: g)) then .ok ⟨200, "Task not important", false⟩
       else if !(is_leader store (.str (extractFields cfg (b :: g)).creator_id)) then
         .ok ⟨200, "Creator not a leader", false⟩
       else if !(is_task_urgent cfg now (b :: g)) then .ok ⟨200, "Task not urgent", false⟩
       else if !(chatIdTruthy
           (get_telegram_chat_id store (.str (extractFields cfg (b :: g)).responsible_id))) then
         .ok ⟨200, "No Telegram mapping for responsible user", false⟩
       else if sendOk then .ok ⟨200, "Notification sent", true⟩
       else .ok ⟨500, "Failed to send notification", true⟩) := rfl

set_option maxHeartbeats 1000000 in
theorem runWebhookBody_dispatched (cfg : Config) (now : Int) (store : FileState)
    (fetch : Option (List (String × PyVal))) (sendOk : Bool) (wd : PyVal) (r : Response)
    (h : runWebhookBody cfg now store fetch sendOk wd = .ok r)
    (hd : r.dispatched = true) :
    r = ⟨200, "Notification sent", true⟩ ∨ r = ⟨500, "Failed to send notification", true⟩ := by
  rw [runWebhookBody.eq_def] at h
  simp only [Bind.bind, Except.bind, pure, Except.pure, runWebhookBody.runAfterFetch,
    extract_task_data, jGetD, jGet] at h
  repeat' split at h
  all_goals first | (cases h; simp_all) | simp_all

/-- C6: the webhook handler's HTTP outcomes — an unparseable body gives
400; no-task-id, CRM-fetch-failure, filter-rejected and
no-identity-mapping outcomes (a falsy chat id: absent or empty string)
give 200 with an explanatory message and no dispatch call (a non-leader
creator in particular gives 200 with "Creator not a leader"); dispatch
failure gives 500; a raised internal fault gives 500 with the generic
message; and the dispatch call is invoked only on the two send
outcomes. -/
theorem webhook_error_taxonomy (cfg : Config) (now : Int) (store : FileState)
    (fetch : Option (List (String × PyVal))) (sendOk : Bool) :
    (webhook_tasks cfg now store fetch sendOk Option.none
      = ⟨400, "Could not parse request data", false⟩) ∧
    (∀ (wd : PyVal) (msg : String),
      runWebhookBody cfg now store fetch sendOk wd = .error msg →
      webhook_tasks cfg now store fetch sendOk (Option.some wd)
        = ⟨500, "Internal server error", false⟩) ∧
    (∀ parsed, (webhook_tasks cfg now store fetch sendOk parsed).dispatched = true →
      webhook_tasks cfg now store fetch sendOk parsed = ⟨200, "Notification sent", true⟩ ∨
      webhook_tasks cfg now store fetch sendOk parsed
        = ⟨500, "Failed to send notification", true⟩) ∧
    (webhook_tasks cfg now store fetch sendOk (Option.some (.dict []))
      = ⟨200, "No task ID", false⟩) ∧
    (∀ (a : String × PyVal) (f : List (String × PyVal)),
      pyTruthy (tfaTaskId (a :: f)) = true →
      webhook_tasks cfg now store Option.none sendOk (Option.some (wdOf (a :: f)))
        = ⟨200, "Could not fetch task data", false⟩) ∧
    (∀ (a b : String × PyVal) (f g : List (String × PyVal)),
      pyTruthy (tfaTaskId (a :: f)) = true →
      is_task_important (b :: g) = false →
      webhook_tasks cfg now store (Option.some (b :: g)) sendOk (Option.some (wdOf (a :: f)))
        = ⟨200, "Task not important", false⟩) ∧
    (∀ (a b : String × PyVal) (f g : List (String × PyVal)),
      pyTruthy (tfaTaskId (a :: f)) = true →
      is_task_important (b :: g) = true →
      is_leader store (.str (extractFields cfg (b :: g)).creator_id) = false →
      webhook_tasks cfg now store (Option.some (b :: g)) sendOk (Option.some (wdOf (a :: f)))
        = ⟨200, "Creator not a leader", false⟩) ∧
    (∀ (a b : String × PyVal) (f g : List (String × PyVal)),
      pyTruthy (tfaTaskId (a :: f)) = true →
      is_task_important (b :: g) = true →
      is_leader store (.str (extractFields cfg (b :: g)).creator_id) = true →
      is_task_urgent cfg now (b :: g) = false →
      webhook_tasks cfg now store (Option.some (b :: g)) sendOk (Option.some (wdOf (a :: f)))
        = ⟨200, "Task not urgent", false⟩) ∧
    (∀ (a b : String × PyVal) (f g : List (String × PyVal)),
      pyTruthy (tfaTaskId (a :: f)) = true →
      is_task_important (b :: g) = true →
      is_leader store (.str (extractFields cfg (b :: g)).creator_id) = true →
      is_task_urgent cfg now (b :: g) = true →
      chatIdTruthy (get_telegram_chat_id store
        (.str (extractFields cfg (b :: g)).responsible_id)) = false →
      webhook_tasks cfg now store (Option.some (b :: g)) sendOk (Option.some (wdOf (a :: f)))
        = ⟨200, "No Telegram mapping for responsible user", false⟩) ∧
    (∀ (a b : String × PyVal) (f g : List (String × PyVal)),
      pyTruthy (tfaTaskId (a :: f)) = true →
      is_task_important (b :: g) = true →
      is_leader store (.str (extractFields cfg (b :: g)).creator_id) = true →
      is_task_urgent cfg now (b :: g) = true →
      chatIdTruthy (get_telegram_chat_id store
        (.str (extractFields cfg (b :: g)).responsible_id)) = true →
      webhook_tasks cfg now store (Option.some (b :: g)) false (Option.some (wdOf (a :: f)))
        = ⟨500, "Failed to send notification", true⟩) := by
  refine ⟨rfl, ?_, ?_, rfl, ?_, ?_, ?_, ?_, ?_, ?_⟩
  · intro wd msg h
    simp only [webhook_tasks, h]
  · intro parsed hd
    cases parsed with
    | none => simp [webhook_tasks] at hd
    | some wd =>
      simp only [webhook_tasks] at hd ⊢
      cases hr : runWebhookBody cfg now store fetch sendOk wd with
      | error e => rw [hr] at hd; simp at hd
      | ok r =>
        rw [hr] at hd
        rcases runWebhookBody_dispatched cfg now store fetch sendOk wd r hr
          (by simpa using hd) with h | h <;> simp [h]
  · intro a f htid
    simp only [webhook_tasks, runWebhookBody_envelope cfg now store Option.none sendOk a f htid]
  · intro a b f g htid himp
    simp only [webhook_tasks,
      runWebhookBody_envelope cfg now store (Option.some (b :: g)) sendOk a f htid,
      runAfterFetch_cons, himp]
    rfl
  · intro a b f g htid himp hlead
    simp only [webhook_tasks,
      runWebhookBody_envelope cfg now store (Option.some (b :: g)) sendOk a f htid,
      runAfterFetch_cons, himp, hlead]
    rfl
  · intro a b f g htid himp hlead hurg
    simp only [webhook_tasks,
      runWebhookBody_envelope cfg now store (Option.some (b :: g)) sendOk a f htid,
      runAfterFetch_cons, himp, hlead, hurg]
    rfl
  · intro a b f g htid himp hlead hurg hmap
    simp only [webhook_tasks,
      runWebhookBody_envelope cfg now store (Option.some (b :: g)) sendOk a f htid,
      runAfterFetch_cons, himp, hlead, hurg, hmap]
    rfl
  · intro a b f g htid himp hlead hurg hmap
    simp only [webhook_tasks,
      runWebhookBody_envelope cfg now store (Option.some (b :: g)) false a f htid,
      runAfterFetch_cons, himp, hlead, hurg, hmap]
    rfl

/-- Witness instantiating C6 at the spec's end-to-end scenario: an
important task whose creator "999" is not in the leader set is skipped
with 200 "Creator not a leader" and no dispatch. -/
theorem webhook_error_taxonomy_witness :
    (pyTruthy (tfaTaskId (("ID", PyVal.str "1") ::
      [("STATUS_ID", PyVal.str "2"), ("CREATED_BY", PyVal.str "999"),
       ("RESPONSIBLE_ID", PyVal.str "200"), ("PRIORITY", PyVal.str "3")])) = true) ∧
    (is_task_important (("ID", PyVal.str "1") ::
      [("STATUS_ID", PyVal.str "2"), ("CREATED_BY", PyVal.str "999"),
       ("RESPONSIBLE_ID", PyVal.str "200"), ("PRIORITY", PyVal.str "3")]) = true) ∧
    (is_leader (.valid ⟨[.str "100"], [("200", "555")]⟩)
      (.str (extractFields ⟨2, 24, "", ""⟩ (("ID", PyVal.str "1") ::
        [("STATUS_ID", PyVal.str "2"), ("CREATED_BY", PyVal.str "999"),
         ("RESPONSIBLE_ID", PyVal.str "200"), ("PRIORITY", PyVal.str "3")])).creator_id)
      = false) ∧
    (webhook_tasks ⟨2, 24, "", ""⟩ 0 (.valid ⟨[.str "100"], [("200", "555")]⟩)
      (Option.some (("ID", PyVal.str "1") ::
        [("STATUS_ID", PyVal.str "2"), ("CREATED_BY", PyVal.str "999"),
         ("RESPONSIBLE_ID", PyVal.str "200"), ("PRIORITY", PyVal.str "3")])) true
      (Option.some (wdOf (("ID", PyVal.str "1") ::
        [("STATUS_ID", PyVal.str "2"), ("CREATED_BY", PyVal.str "999"),
         ("RESPONSIBLE_ID", PyVal.str "200"), ("PRIORITY", PyVal.str "3")])))
      = ⟨200, "Creator not a leader", false⟩) :=
  ⟨rfl, rfl, rfl,
    (webhook_error_taxonomy ⟨2, 24, "", ""⟩ 0 (.valid ⟨[.str "100"], [("200", "555")]⟩)
        Option.none true).2.2.2.2.2.2.1
      ("ID", PyVal.str "1") ("ID", PyVal.str "1")
      [("STATUS_ID", PyVal.str "2"), ("CREATED_BY", PyVal.str "999"),
       ("RESPONSIBLE_ID", PyVal.str "200"), ("PRIORITY", PyVal.str "3")]
      [("STATUS_ID", PyVal.str "2"), ("CREATED_BY", PyVal.str "999"),
       ("RESPONSIBLE_ID", PyVal.str "200"), ("PRIORITY", PyVal.str "3")]
      rfl rfl rfl⟩

end Notif
